import Mathlib

/-!
Verification development for the protocol-session scripts of the
react-native-debugger repository (src/scripts/execute_in_app.py,
src/scripts/read_logs.py, src/scripts/discover_apps.py).

The Python code is shallowly embedded: JSON values become the `Json`
inductive below (numbers are modelled as integers, which covers every
value the protocol uses; Python's cross-type equalities such as
`True == 1` and float/int equality are not modelled, `Json.bool` and
`Json.num` being distinct constructors), dictionaries become association
lists, and code paths on which the Python would raise an uncaught
exception (attribute errors on non-dict field values, `str + non-str`
concatenation, and so on) are modelled explicitly as `Except.error` or a
`crashed` flag.
-/

/-- JSON values as delivered by `json.loads`: null, booleans, numbers
(modelled as integers), strings, arrays and objects (association lists,
keys unique after `json.loads`). -/
inductive Json where
  | null
  | bool (b : Bool)
  | num (n : Int)
  | str (s : String)
  | arr (elems : List Json)
  | obj (fields : List (String × Json))

mutual

/-- Decidable equality on `Json`, written by hand because the nested
inductive prevents the automatic derivation. -/
def Json.decEq : (a b : Json) → Decidable (a = b)
  | .null, .null => isTrue rfl
  | .bool a, .bool b =>
      if h : a = b then isTrue (by rw [h]) else
        isFalse fun he => h (by injection he)
  | .num a, .num b =>
      if h : a = b then isTrue (by rw [h]) else
        isFalse fun he => h (by injection he)
  | .str a, .str b =>
      if h : a = b then isTrue (by rw [h]) else
        isFalse fun he => h (by injection he)
  | .arr xs, .arr ys =>
      match jsonListDecEq xs ys with
      | isTrue h => isTrue (by rw [h])
      | isFalse h => isFalse fun he => h (by injection he)
  | .obj fs, .obj gs =>
      match jsonFieldsDecEq fs gs with
      | isTrue h => isTrue (by rw [h])
      | isFalse h => isFalse fun he => h (by injection he)
  | .null, .bool _ => isFalse fun h => Json.noConfusion h
  | .null, .num _ => isFalse fun h => Json.noConfusion h
  | .null, .str _ => isFalse fun h => Json.noConfusion h
  | .null, .arr _ => isFalse fun h => Json.noConfusion h
  | .null, .obj _ => isFalse fun h => Json.noConfusion h
  | .bool _, .null => isFalse fun h => Json.noConfusion h
  | .bool _, .num _ => isFalse fun h => Json.noConfusion h
  | .bool _, .str _ => isFalse fun h => Json.noConfusion h
  | .bool _, .arr _ => isFalse fun h => Json.noConfusion h
  | .bool _, .obj _ => isFalse fun h => Json.noConfusion h
  | .num _, .null => isFalse fun h => Json.noConfusion h
  | .num _, .bool _ => isFalse fun h => Json.noConfusion h
  | .num _, .str _ => isFalse fun h => Json.noConfusion h
  | .num _, .arr _ => isFalse fun h => Json.noConfusion h
  | .num _, .obj _ => isFalse fun h => Json.noConfusion h
  | .str _, .null => isFalse fun h => Json.noConfusion h
  | .str _, .bool _ => isFalse fun h => Json.noConfusion h
  | .str _, .num _ => isFalse fun h => Json.noConfusion h
  | .str _, .arr _ => isFalse fun h => Json.noConfusion h
  | .str _, .obj _ => isFalse fun h => Json.noConfusion h
  | .arr _, .null => isFalse fun h => Json.noConfusion h
  | .arr _, .bool _ => isFalse fun h => Json.noConfusion h
  | .arr _, .num _ => isFalse fun h => Json.noConfusion h
  | .arr _, .str _ => isFalse fun h => Json.noConfusion h
  | .arr _, .obj _ => isFalse fun h => Json.noConfusion h
  | .obj _, .null => isFalse fun h => Json.noConfusion h
  | .obj _, .bool _ => isFalse fun h => Json.noConfusion h
  | .obj _, .num _ => isFalse fun h => Json.noConfusion h
  | .obj _, .str _ => isFalse fun h => Json.noConfusion h
  | .obj _, .arr _ => isFalse fun h => Json.noConfusion h

/-- Decidable equality on lists of `Json`. -/
def jsonListDecEq : (xs ys : List Json) → Decidable (xs = ys)
  | [], [] => isTrue rfl
  | [], _ :: _ => isFalse fun h => List.noConfusion h
  | _ :: _, [] => isFalse fun h => List.noConfusion h
  | x :: xs, y :: ys =>
      match Json.decEq x y, jsonListDecEq xs ys with
      | isTrue h1, isTrue h2 => isTrue (by rw [h1, h2])
      | isFalse h1, _ =>
          isFalse fun he => h1 (by injection he)
      | _, isFalse h2 =>
          isFalse fun he => h2 (by injection he)

/-- Decidable equality on `Json` association lists. -/
def jsonFieldsDecEq : (fs gs : List (String × Json)) → Decidable (fs = gs)
  | [], [] => isTrue rfl
  | [], _ :: _ => isFalse fun h => List.noConfusion h
  | _ :: _, [] => isFalse fun h => List.noConfusion h
  | (k, v) :: fs, (l, w) :: gs =>
      if h1 : k = l then
        match Json.decEq v w, jsonFieldsDecEq fs gs with
        | isTrue h2, isTrue h3 => isTrue (by rw [h1, h2, h3])
        | isFalse h2, _ =>
            isFalse fun he => h2 (by injection he with hh ht; injection hh)
        | _, isFalse h3 =>
            isFalse fun he => h3 (by injection he)
      else
        isFalse fun he => h1 (by injection he with hh ht; injection hh)

end

instance : DecidableEq Json := Json.decEq

deriving instance DecidableEq for Except

/-- A decoded JSON dictionary, the shape every protocol message takes. -/
abbrev JDict := List (String × Json)

/-- Association-list lookup, modelling `d[k]` / the hit case of `d.get(k)`. -/
def lookupField : JDict → String → Option Json
  | [], _ => none
  | (k, v) :: rest, key => if k = key then some v else lookupField rest key

/-- Python's `d.get(key, dflt)`: the stored value when the key is present
(even when that value is JSON null), otherwise the default. -/
def getD (fields : JDict) (key : String) (dflt : Json) : Json :=
  (lookupField fields key).getD dflt

/-- Python's `key in d` membership test on a dict. -/
def hasKey (fields : JDict) (key : String) : Bool :=
  (lookupField fields key).isSome

/-- Python truthiness of a JSON-derived value: `None`, `False`, `0`, `""`,
`[]` and the empty dict are falsy, everything else truthy. -/
def truthy : Json → Bool
  | .null => false
  | .bool b => b
  | .num n => n != 0
  | .str s => s != ""
  | .arr xs => !xs.isEmpty
  | .obj fs => !fs.isEmpty

/-- Python truthiness of an `Optional[str]`: `None` and `""` are falsy. -/
def truthyStrOpt : Option String → Bool
  | none => false
  | some s => s != ""

/-- Python's `not result["error"]` where the slot holds `None` or a JSON
value: true when the slot is empty or holds a falsy value. -/
def errFalsy : Option Json → Bool
  | none => true
  | some j => !truthy j

/-- One hexadecimal digit (lowercase, as Python's json module emits). -/
def hexDigit (n : Nat) : Char :=
  if n < 10 then Char.ofNat (48 + n) else Char.ofNat (87 + n)

/-- Four-digit lowercase hexadecimal rendering of a code unit. -/
def hex4 (n : Nat) : String :=
  String.mk [hexDigit (n / 4096 % 16), hexDigit (n / 256 % 16),
             hexDigit (n / 16 % 16), hexDigit (n % 16)]

/-- Escape of one character inside a JSON string literal, following
`json.dumps` with its default `ensure_ascii=True` (non-ASCII characters
become \u escapes, astral ones a surrogate pair). -/
def jsonEscapeChar (c : Char) : String :=
  if c = '"' then "\\\""
  else if c = '\\' then "\\\\"
  else if c = '\n' then "\\n"
  else if c = '\r' then "\\r"
  else if c = '\t' then "\\t"
  else if c.toNat = 8 then "\\b"
  else if c.toNat = 12 then "\\f"
  else if c.toNat < 32 then "\\u" ++ hex4 c.toNat
  else if c.toNat ≤ 127 then String.singleton c
  else if c.toNat < 65536 then "\\u" ++ hex4 c.toNat
  else
    let v := c.toNat - 65536
    "\\u" ++ hex4 (55296 + v / 1024) ++ "\\u" ++ hex4 (56320 + v % 1024)

/-- A JSON string literal as `json.dumps` renders it. -/
def jsonQuote (s : String) : String :=
  "\"" ++ String.join (s.data.map jsonEscapeChar) ++ "\""

/-- A run of `n` spaces, for `json.dumps(..., indent=2)`. -/
def indentStr (n : Nat) : String :=
  String.mk (List.replicate n ' ')

mutual

/-- Rendering of a JSON value by `json.dumps(val, indent=2)` at a given
current indentation level. -/
def dumpsAt : Json → Nat → String
  | .null, _ => "null"
  | .bool true, _ => "true"
  | .bool false, _ => "false"
  | .num n, _ => toString n
  | .str s, _ => jsonQuote s
  | .arr [], _ => "[]"
  | .arr (x :: xs), lvl =>
      "[\n" ++ dumpsArrItems (x :: xs) (lvl + 2) ++ "\n" ++ indentStr lvl ++ "]"
  | .obj [], _ => "\x7b\x7d"
  | .obj (f :: fs), lvl =>
      "\x7b\n" ++ dumpsObjItems (f :: fs) (lvl + 2) ++ "\n" ++ indentStr lvl ++ "\x7d"

/-- Comma-and-newline separated array items for `dumpsAt`. -/
def dumpsArrItems : List Json → Nat → String
  | [], _ => ""
  | [x], lvl => indentStr lvl ++ dumpsAt x lvl
  | x :: y :: rest, lvl =>
      indentStr lvl ++ dumpsAt x lvl ++ ",\n" ++ dumpsArrItems (y :: rest) lvl

/-- Comma-and-newline separated object items for `dumpsAt`. -/
def dumpsObjItems : List (String × Json) → Nat → String
  | [], _ => ""
  | [(k, v)], lvl => indentStr lvl ++ jsonQuote k ++ ": " ++ dumpsAt v lvl
  | (k, v) :: f :: fs, lvl =>
      indentStr lvl ++ jsonQuote k ++ ": " ++ dumpsAt v lvl ++ ",\n" ++
        dumpsObjItems (f :: fs) lvl

end

mutual

/-- Python's `repr` of a JSON-derived value (used when an f-string
interpolates a list or dict). -/
def pyRepr : Json → String
  | .null => "None"
  | .bool true => "True"
  | .bool false => "False"
  | .num n => toString n
  | .str s => "\x27" ++ s ++ "\x27"
  | .arr [] => "[]"
  | .arr (x :: xs) => "[" ++ pyReprArrItems (x :: xs) ++ "]"
  | .obj [] => "\x7b\x7d"
  | .obj (f :: fs) => "\x7b" ++ pyReprObjItems (f :: fs) ++ "\x7d"

/-- Comma-separated `repr` items of a Python list. -/
def pyReprArrItems : List Json → String
  | [] => ""
  | [x] => pyRepr x
  | x :: y :: rest => pyRepr x ++ ", " ++ pyReprArrItems (y :: rest)

/-- Comma-separated `repr` items of a Python dict. -/
def pyReprObjItems : List (String × Json) → String
  | [] => ""
  | [(k, v)] => "\x27" ++ k ++ "\x27: " ++ pyRepr v
  | (k, v) :: f :: fs =>
      "\x27" ++ k ++ "\x27: " ++ pyRepr v ++ ", " ++ pyReprObjItems (f :: fs)

end

/-- Python `str()` of a JSON-derived value, as an f-string interpolates it. -/
def pyStrI : Json → String
  | .str s => s
  | .null => "None"
  | .bool true => "True"
  | .bool false => "False"
  | .num n => toString n
  | .arr xs => pyRepr (.arr xs)
  | .obj fs => pyRepr (.obj fs)

/-- Predicate for the string constructor. -/
def Json.isStr : Json → Bool
  | .str _ => true
  | _ => false

/-- List-level infix test used to model Python's `needle in haystack`
on strings (`""` is contained in everything, as in Python). -/
def infixOfAux (needle : List Char) : List Char → Bool
  | [] => needle.isEmpty
  | c :: rest => needle.isPrefixOf (c :: rest) || infixOfAux needle rest

/-- Python's substring containment `needle in haystack`. -/
def strContains (haystack needle : String) : Bool :=
  infixOfAux needle.data haystack.data

/-- Rendering of an inline `value` field, from `format_result` /
`format_remote_object`: composites (dicts/lists) are pretty-printed with
`json.dumps(val, indent=2)`, every other value goes through `str(val)`.
Python `str()` on a scalar never raises. -/
def renderValue : Json → String
  | .arr xs => dumpsAt (.arr xs) 0
  | .obj fs => dumpsAt (.obj fs) 0
  | .null => "None"
  | .bool true => "True"
  | .bool false => "False"
  | .num n => toString n
  | .str s => s

/-- Shared tail of both decoders (`execute_in_app.py` lines 93-94,
`read_logs.py` lines 91-92): `subtype = result.get("subtype", "")` then
the f-string with the conditional expression. When `subtype` is truthy
but not a string, Python's `' ' + subtype` raises a `TypeError`, which
the model records as `Except.error`. -/
def fallbackRender (r : JDict) : Except Unit String :=
  let objType := getD r "type" (.str "unknown")
  let subtype := getD r "subtype" (.str "")
  if truthy subtype then
    match subtype with
    | .str s => .ok ("[" ++ pyStrI objType ++ " " ++ s ++ "]")
    | _ => .error ()
  else .ok ("[" ++ pyStrI objType ++ "]")

/-- Decoder of `execute_in_app.py` (lines 69-94): undefined, null,
inline value, description, unserializableValue, synthesized fallback, in
that order. The `description` / `unserializableValue` branches return the
stored field value verbatim (Python does not coerce it to a string). -/
def format_result (r : JDict) : Except Unit Json :=
  let objType := getD r "type" (.str "unknown")
  if objType == .str "undefined" then .ok (.str "undefined")
  else if getD r "subtype" .null == .str "null" then .ok (.str "null")
  else
    match lookupField r "value" with
    | some v => .ok (.str (renderValue v))
    | none =>
      match lookupField r "description" with
      | some d => .ok d
      | none =>
        match lookupField r "unserializableValue" with
        | some u => .ok u
        | none => (fallbackRender r).map Json.str

/-- Decoder of `read_logs.py` (lines 73-92): the same branches, but with
`description` tested before `value`. -/
def format_remote_object (r : JDict) : Except Unit Json :=
  let objType := getD r "type" (.str "unknown")
  if objType == .str "undefined" then .ok (.str "undefined")
  else if getD r "subtype" .null == .str "null" then .ok (.str "null")
  else
    match lookupField r "description" with
    | some d => .ok d
    | none =>
      match lookupField r "value" with
      | some v => .ok (.str (renderValue v))
      | none =>
        match lookupField r "unserializableValue" with
        | some u => .ok u
        | none => (fallbackRender r).map Json.str

/-- Outcome of `resolve_app` in both scripts: the `sys.exit(1)` paths are
modelled as distinguished failure constructors carrying the diagnostic
payload (the printed per-candidate lines). -/
inductive ResolveResult where
  | ok (app : JDict)
  | noTargets
  | notFound (available : List String)
  | ambiguous (available : List String)
deriving DecidableEq

/-- One diagnostic line `  - {app.get('id')}: {app.get('title')}` as
printed by `resolve_app` for each candidate. -/
def candidateLine (app : JDict) : String :=
  "  - " ++ pyStrI (getD app "id" .null) ++ ": " ++ pyStrI (getD app "title" .null)

/-- Target resolver, identical in `execute_in_app.py` (lines 40-66) and
`read_logs.py` (lines 42-70). `if app_id:` is Python truthiness, so both
`None` and the empty string fall through to auto-select/ambiguity. -/
def resolve_app (app_id : Option String) (apps : List JDict) : ResolveResult :=
  if apps.isEmpty then .noTargets
  else if truthyStrOpt app_id then
    match List.find? (fun app => getD app "id" .null == .str (app_id.getD "")) apps with
    | some app => .ok app
    | none => .notFound (apps.map candidateLine)
  else if apps.length == 1 then .ok (apps.headD [])
  else .ambiguous (apps.map candidateLine)

/-- One incoming channel frame as seen by an `on_message` callback:
either a JSON object or text that `json.loads` rejects (the scripts'
callbacks only ever field-access the decoded value, so valid non-object
JSON is not distinguished here; no claim concerns it). -/
inductive WireMsg where
  | malformed
  | obj (data : JDict)

/-- Effect of the `msg_id == 2` body of `execute_in_app.on_message`
(lines 128-142) on the flow-local result record: it either records
nothing (a response with neither `error` nor `result`), records an error
value, records a decoded output, or raises (modelled as `crash`; an
exception escapes the callback before `ws.close()` is reached). -/
inductive EvalEffect where
  | none0
  | recErr (e : Json)
  | recOut (out : Json)
  | crash
deriving DecidableEq

/-- The `msg_id == 2` decision logic of `execute_in_app.on_message` as a
pure function of the response object. Non-dict `error`, non-dict
`exception`, and non-dict arguments to `format_result` raise attribute
or type errors in Python; a string or list `result` is probed by
Python's `in` operator (substring / membership) before indexing raises. -/
def evalResponseEffect (data : JDict) : EvalEffect :=
  match lookupField data "error" with
  | some (.obj e) => .recErr (getD e "message" (.str "Unknown error"))
  | some _ => .crash
  | none =>
    match lookupField data "result" with
    | some (.obj er) =>
      (match lookupField er "exceptionDetails" with
       | some (.obj excFields) =>
         (match getD excFields "exception" (.obj []) with
          | .obj excObj =>
            let d := getD excObj "description" .null
            .recErr (if truthy d then d else getD excFields "text" (.str "Exception"))
          | _ => .crash)
       | some _ => .crash
       | none =>
         (match lookupField er "result" with
          | some (.obj rf) =>
            (match format_result rf with
             | .ok out => .recOut out
             | .error _ => .crash)
          | some _ => .crash
          | none => .recOut (.str "undefined")))
    | some (.str s) =>
      if strContains s "exceptionDetails" then .crash
      else if strContains s "result" then .crash
      else .recOut (.str "undefined")
    | some (.arr xs) =>
      if xs.contains (.str "exceptionDetails") then .crash
      else if xs.contains (.str "result") then .crash
      else .recOut (.str "undefined")
    | some _ => .crash
    | none => .none0

/-- Flow-local state of `execute_in_app` (lines 97-179): the mutable
`result` record plus the handshake flag, whether the evaluate request
has been sent, whether `ws.close()` has been initiated from this side,
and whether a callback raised an uncaught exception (after which the
model stops interpreting the session). -/
structure ExecState where
  success : Bool
  output : Option Json
  error : Option Json
  runtime_enabled : Bool
  sentEval : Bool
  closed : Bool
  crashed : Bool
deriving DecidableEq

/-- State just after `execute_in_app` constructs its `result` record. -/
def execInit : ExecState :=
  { success := false, output := none, error := none, runtime_enabled := false,
    sentEval := false, closed := false, crashed := false }

/-- Application of an `EvalEffect`: every non-crash path of the
`msg_id == 2` branch falls through to `ws.close()`. -/
def applyEffect (st : ExecState) : EvalEffect → ExecState
  | .none0 => { st with closed := true }
  | .recErr e => { st with error := some e, closed := true }
  | .recOut o => { st with success := true, output := some o, closed := true }
  | .crash => { st with crashed := true }

/-- The `on_message` callback of `execute_in_app` (lines 105-146). A
frame that is not valid JSON is swallowed by the
`except json.JSONDecodeError: pass` handler. On `msg_id == 1` the
callback sets the handshake flag and sends the `Runtime.evaluate`
request (id 2, with the expression and the by-value/await flags); the
request content does not affect local state beyond `sentEval`. Frames
arriving after the channel was closed (or after a callback crash) are
not delivered by the read loop. -/
def execStep (st : ExecState) (m : WireMsg) : ExecState :=
  if st.closed || st.crashed then st
  else
    match m with
    | .malformed => st
    | .obj data =>
      let mid := getD data "id" .null
      if mid == .num 1 then { st with runtime_enabled := true, sentEval := true }
      else if mid == .num 2 then applyEffect st (evalResponseEffect data)
      else st

/-- One observable event on the evaluation channel: a delivered frame or
an `on_error` invocation with the transport error's description. -/
inductive ChanEvent where
  | msg (m : WireMsg)
  | transportError (desc : String)

/-- Boolean discriminator for transport-error events. -/
def isTransportErr : ChanEvent → Bool
  | .transportError _ => true
  | _ => false

/-- Event interpreter for the evaluation flow: `on_error` (lines
153-155) overwrites `result["error"]` with the rendered message and does
not close the channel. -/
def execEvent (st : ExecState) (ev : ChanEvent) : ExecState :=
  match ev with
  | .msg m => execStep st m
  | .transportError desc =>
      if st.closed || st.crashed then st
      else { st with error := some (.str ("WebSocket error: " ++ desc)) }

/-- The timeout message synthesized by `execute_in_app` (line 177). -/
def timeoutMsg : String := "Timeout: Expression took too long to evaluate"

/-- The post-join epilogue of `execute_in_app` (lines 174-177): when the
background thread is still alive after `join(timeout)` the controlling
thread force-closes the channel and, if neither a (truthy) error nor a
success had been recorded, synthesizes the timeout error. -/
def execFinish (st : ExecState) (threadAlive : Bool) : ExecState :=
  if threadAlive then
    let st1 := { st with closed := true }
    if !st1.success && errFalsy st1.error then
      { st1 with error := some (.str timeoutMsg) }
    else st1
  else st

/-- The whole evaluation flow over a channel trace: fold the events from
the initial record, then run the timeout epilogue. `threadAlive` is true
exactly when the wall-clock timeout elapsed before the read loop ended
(e.g. because the peer kept the connection open); it is false when the
connection ended by itself first (peer close or completed exchange). -/
def execute_in_app (evs : List ChanEvent) (threadAlive : Bool) : ExecState :=
  execFinish (evs.foldl execEvent execInit) threadAlive

/-- The diagnostic marker recognized by `read_logs.on_message`
(`read_logs.py` line 103). -/
def UNSUPPORTED_MSG : String := "You are using an unsupported debugging client"

/-- One captured console record (`log_entry` in `read_logs.py`): the
`level` is stored exactly as `params.get("type", "log")` returned it
(not necessarily a string), `text` is the space-joined decoding of the
arguments, `location` the optional rendered top stack frame. -/
structure LogEntry where
  level : Json
  text : String
  location : Option String
deriving DecidableEq

/-- Flow-local state of `read_logs`: the accumulated records, whether
`ws.close()` was initiated, and whether a callback raised. -/
structure LogState where
  logs : List LogEntry
  closed : Bool
  crashed : Bool
deriving DecidableEq

/-- Initial state of `read_logs` (line 99). -/
def logInit : LogState := { logs := [], closed := false, crashed := false }

/-- Python iteration over `params.get("args", [])` as a list of
candidate RemoteValues. Iterating a non-empty string or dict yields
characters/keys, which are strings, so `format_remote_object(arg)`
raises `AttributeError` on the first one; iterating any other non-list
raises `TypeError`. The empty string and empty dict iterate to nothing,
exactly like the empty list. -/
def argList : Json → Except Unit (List Json)
  | .arr xs => .ok xs
  | .str "" => .ok []
  | .obj [] => .ok []
  | _ => .error ()

/-- Decoding of each console argument in order, stopping at the first
raise: a non-dict argument raises in `format_remote_object`, and
`" ".join` raises `TypeError` as soon as a non-string decoded value is
consumed. -/
def decodeArgsAux : List Json → Except Unit (List String)
  | [] => .ok []
  | a :: rest =>
    match a with
    | .obj fields =>
      (match format_remote_object fields with
       | .ok (.str s) => (decodeArgsAux rest).map (fun l => s :: l)
       | .ok _ => .error ()
       | .error _ => .error ())
    | _ => .error ()

/-- The record text `" ".join(format_remote_object(arg) for arg in args)`. -/
def decodeArgs (args : List Json) : Except Unit String :=
  (decodeArgsAux args).map (fun l => String.intercalate " " l)

/-- The configured filter, abstracted as a predicate on the record text:
`re.compile(pattern)` applied via `.search`. `none` models both an
absent `--filter` argument and the falsy empty pattern string. The
record is rejected when a filter is configured and does not match
(line 121). -/
def patternReject (p : Option (String → Bool)) (text : String) : Bool :=
  match p with
  | none => false
  | some f => !f text

/-- The stack-trace rendering of `read_logs.on_message` (lines 130-134):
only for error/warning levels when `stackTrace` is present; a falsy
`callFrames` yields no location; a truthy non-list `callFrames`, a
non-dict first frame, or a non-dict `stackTrace` value raises. -/
def mkLocation (level : Json) (params : JDict) : Except Unit (Option String) :=
  if (level == .str "error" || level == .str "warning") && hasKey params "stackTrace" then
    match lookupField params "stackTrace" with
    | some (.obj stObj) =>
      (match getD stObj "callFrames" (.arr []) with
       | .arr [] => .ok none
       | .arr (.obj top :: _) =>
           .ok (some (pyStrI (getD top "functionName" (.str "anonymous")) ++
             " (line " ++ pyStrI (getD top "lineNumber" (.str "?")) ++ ")"))
       | .arr (_ :: _) => .error ()
       | other => if truthy other then .error () else .ok none)
    | _ => .error ()
  else .ok none

/-- Effect of one delivered JSON object on the log-capture callback
(`read_logs.py` lines 109-136 up to the append): not a console event or
dropped (marker / filter) leaves the state alone; otherwise one record
is produced; shape errors raise. The marker test happens on the joined
text before the level is read, before the filter and before counting. -/
inductive LogEffect where
  | skip
  | crash
  | record (entry : LogEntry)
deriving DecidableEq

/-- Decision logic of `read_logs.on_message` for one decoded frame. -/
def consoleEffect (p : Option (String → Bool)) (data : JDict) : LogEffect :=
  if getD data "method" .null == .str "Runtime.consoleAPICalled" then
    match getD data "params" (.obj []) with
    | .obj params =>
      (match argList (getD params "args" (.arr [])) with
       | .error _ => .crash
       | .ok args =>
         (match decodeArgs args with
          | .error _ => .crash
          | .ok text =>
            if strContains text UNSUPPORTED_MSG then .skip
            else
              let level := getD params "type" (.str "log")
              if patternReject p text then .skip
              else
                match mkLocation level params with
                | .error _ => .crash
                | .ok loc => .record { level := level, text := text, location := loc }))
    | _ => .crash
  else .skip

/-- The `on_message` callback of `read_logs` (lines 105-141), including
the append and the `len(logs) >= max_logs` close (lines 136-139).
Frames after the close (or after a crash) are not delivered by the read
loop; invalid JSON is swallowed by the `except` handler. -/
def logStep (maxLogs : Int) (p : Option (String → Bool)) (st : LogState) (m : WireMsg) :
    LogState :=
  if st.closed || st.crashed then st
  else
    match m with
    | .malformed => st
    | .obj data =>
      match consoleEffect p data with
      | .skip => st
      | .crash => { st with crashed := true }
      | .record entry =>
        let logs2 := st.logs ++ [entry]
        if (logs2.length : Int) ≥ maxLogs then { st with logs := logs2, closed := true }
        else { st with logs := logs2 }

/-- The log-capture session over a trace of delivered frames. -/
def runLog (maxLogs : Int) (p : Option (String → Bool)) (msgs : List WireMsg) : LogState :=
  msgs.foldl (logStep maxLogs p) logInit

/-- The whole `read_logs` flow (lines 95-171): run the callback over the
delivered frames and return the accumulated records. `threadAlive` is
true when the wall-clock timeout elapsed first; the epilogue then only
closes the channel (line 169) — it never alters or discards the records
and produces no error (the return type has no error component). -/
def read_logs (maxLogs : Int) (p : Option (String → Bool)) (msgs : List WireMsg)
    (threadAlive : Bool) : List LogEntry :=
  let _timedOut := threadAlive
  let st := runLog maxLogs p msgs
  st.logs


/-! ## Shared helper lemmas and sample data -/

/-- A console-API frame with one plain string argument, as the peer
emits for `console.log("hello")`. -/
def sampleConsoleMsg : WireMsg :=
  .obj [("method", .str "Runtime.consoleAPICalled"),
        ("params", .obj [("args", .arr [.obj [("type", .str "string"), ("value", .str "hello")]])])]

/-- A RemoteValue carrying both an inline value and a description. -/
def bothFieldsObj : JDict :=
  [("type", .str "object"), ("value", .num 5), ("description", .str "Object")]

/-- When the fallback `subtype`, if truthy, is a string, the shared
fallback rendering cannot raise. -/
lemma fallbackRender_ok (r : JDict)
    (hs : truthy (getD r "subtype" (.str "")) = true →
          (getD r "subtype" (.str "")).isStr = true) :
    ∃ s, fallbackRender r = .ok s := by
  unfold fallbackRender
  rcases hsub : getD r "subtype" (.str "") with _ | b | n | s | xs | fs <;>
    rw [hsub] at hs <;>
    simp only [hsub] <;>
    split
  all_goals
    first
      | exact ⟨_, rfl⟩
      | (rename_i hT; exact absurd (hs hT) (by simp [Json.isStr]))

/-- `List.find?` returns the head of the first segment whose predicate
holds, skipping a prefix on which it is false everywhere. -/
lemma find?_append_first {α : Type} (p : α → Bool) (pre : List α) (a : α) (post : List α)
    (hpre : ∀ b ∈ pre, p b = false) (ha : p a = true) :
    List.find? p (pre ++ a :: post) = some a := by
  induction pre with
  | nil => simp [List.find?_cons, ha]
  | cons x xs ih =>
      have hx := hpre x (by simp)
      simp only [List.cons_append, List.find?_cons, hx]
      exact ih (fun b hb => hpre b (by simp [hb]))

/-! ## C1: ordered decision rule of the two decoders -/

/-- C1 counterexample: on a RemoteValue carrying both an inline value
and a description, `format_result` renders the value but
`format_remote_object` returns the description — the two decoders do not
share the claimed ordering (value before description). -/
theorem c1_counterexample :
    format_result bothFieldsObj = .ok (.str "5") ∧
    format_remote_object bothFieldsObj = .ok (.str "Object") ∧
    format_remote_object bothFieldsObj ≠ format_result bothFieldsObj := by
  decide

/-- C1 (amended): `format_result` follows the ordered rule of §4.3
exactly — undefined, null, inline value (pretty-printed composite or
plain textual form), description verbatim, unserializableValue verbatim,
synthesized fallback — while `format_remote_object` follows the same
rule with steps (3) and (4) swapped: it checks the description before
the inline value, so on a RemoteValue carrying both, `format_result`
renders the inline value and `format_remote_object` returns the
description. -/
theorem c1_decoder_order (r : JDict) :
    (getD r "type" (.str "unknown") = .str "undefined" →
      format_result r = .ok (.str "undefined") ∧
      format_remote_object r = .ok (.str "undefined"))
    ∧ (getD r "type" (.str "unknown") ≠ .str "undefined" →
       getD r "subtype" .null = .str "null" →
      format_result r = .ok (.str "null") ∧
      format_remote_object r = .ok (.str "null"))
    ∧ (∀ v, getD r "type" (.str "unknown") ≠ .str "undefined" →
       getD r "subtype" .null ≠ .str "null" →
       lookupField r "value" = some v →
      format_result r = .ok (.str (renderValue v)))
    ∧ (∀ d, getD r "type" (.str "unknown") ≠ .str "undefined" →
       getD r "subtype" .null ≠ .str "null" →
       lookupField r "value" = none →
       lookupField r "description" = some d →
      format_result r = .ok d)
    ∧ (∀ u, getD r "type" (.str "unknown") ≠ .str "undefined" →
       getD r "subtype" .null ≠ .str "null" →
       lookupField r "value" = none →
       lookupField r "description" = none →
       lookupField r "unserializableValue" = some u →
      format_result r = .ok u)
    ∧ (getD r "type" (.str "unknown") ≠ .str "undefined" →
       getD r "subtype" .null ≠ .str "null" →
       lookupField r "value" = none →
       lookupField r "description" = none →
       lookupField r "unserializableValue" = none →
      format_result r = (fallbackRender r).map Json.str)
    ∧ (∀ d, getD r "type" (.str "unknown") ≠ .str "undefined" →
       getD r "subtype" .null ≠ .str "null" →
       lookupField r "description" = some d →
      format_remote_object r = .ok d)
    ∧ (∀ v, getD r "type" (.str "unknown") ≠ .str "undefined" →
       getD r "subtype" .null ≠ .str "null" →
       lookupField r "description" = none →
       lookupField r "value" = some v →
      format_remote_object r = .ok (.str (renderValue v)))
    ∧ (∀ u, getD r "type" (.str "unknown") ≠ .str "undefined" →
       getD r "subtype" .null ≠ .str "null" →
       lookupField r "description" = none →
       lookupField r "value" = none →
       lookupField r "unserializableValue" = some u →
      format_remote_object r = .ok u)
    ∧ (getD r "type" (.str "unknown") ≠ .str "undefined" →
       getD r "subtype" .null ≠ .str "null" →
       lookupField r "description" = none →
       lookupField r "value" = none →
       lookupField r "unserializableValue" = none →
      format_remote_object r = (fallbackRender r).map Json.str) := by
  refine ⟨?_, ?_, ?_, ?_, ?_, ?_, ?_, ?_, ?_, ?_⟩
  · intro h1
    constructor <;> simp [format_result, format_remote_object, h1]
  · intro h1 h2
    constructor <;> simp [format_result, format_remote_object, h1, h2]
  · intro v h1 h2 h3
    simp [format_result, h1, h2, h3]
  · intro d h1 h2 h3 h4
    simp [format_result, h1, h2, h3, h4]
  · intro u h1 h2 h3 h4 h5
    simp [format_result, h1, h2, h3, h4, h5]
  · intro h1 h2 h3 h4 h5
    simp [format_result, h1, h2, h3, h4, h5]
  · intro d h1 h2 h3
    simp [format_remote_object, h1, h2, h3]
  · intro v h1 h2 h3 h4
    simp [format_remote_object, h1, h2, h3, h4]
  · intro u h1 h2 h3 h4 h5
    simp [format_remote_object, h1, h2, h3, h4, h5]
  · intro h1 h2 h3 h4 h5
    simp [format_remote_object, h1, h2, h3, h4, h5]

/-- C1 witness: the amended ordering evaluated on a concrete RemoteValue
carrying both a value and a description. -/
theorem c1_decoder_order_witness :
    format_result [("type", .str "object"), ("value", .num 3), ("description", .str "D")] =
      .ok (.str "3") ∧
    format_remote_object [("type", .str "object"), ("value", .num 3), ("description", .str "D")] =
      .ok (.str "D") := by
  have h := c1_decoder_order
    [("type", .str "object"), ("value", .num 3), ("description", .str "D")]
  exact ⟨h.2.2.1 (.num 3) (by decide) (by decide) (by decide),
         h.2.2.2.2.2.2.1 (.str "D") (by decide) (by decide) (by decide)⟩

/-! ## C10: totality of the decoders on arbitrary dicts -/

/-- C10 counterexample: the decoders are not total on arbitrary dicts.
A truthy non-string `subtype` makes the fallback f-string evaluate
`' ' + subtype`, raising `TypeError` in both decoders; and a non-string
`description` is returned as-is, so the decoder does not always return
a string even when it does not raise. -/
theorem c10_counterexample :
    format_result [("subtype", .num 5)] = .error () ∧
    format_remote_object [("subtype", .num 5)] = .error () ∧
    format_result [("description", .num 7)] = .ok (.num 7) := by
  decide

/-- C10 (amended): on every dict whose `subtype` field — when present
and truthy — is a string, both decoders return a value without raising
(the raw `description`/`unserializableValue` field value when those
branches fire, a string otherwise); a dict with no type tag and no other
recognized field decodes to "[unknown]" (the type tag defaults to
"unknown"). -/
theorem c10_decode_total (r : JDict)
    (hs : truthy (getD r "subtype" (.str "")) = true →
          (getD r "subtype" (.str "")).isStr = true) :
    (∃ v, format_result r = .ok v) ∧
    (∃ v, format_remote_object r = .ok v) ∧
    format_result [] = .ok (.str "[unknown]") ∧
    format_remote_object [] = .ok (.str "[unknown]") := by
  obtain ⟨s, hfb⟩ := fallbackRender_ok r hs
  refine ⟨?_, ?_, by decide, by decide⟩
  · unfold format_result
    simp only [hfb, Except.map]
    repeat' split
    all_goals exact ⟨_, rfl⟩
  · unfold format_remote_object
    simp only [hfb, Except.map]
    repeat' split
    all_goals exact ⟨_, rfl⟩

/-- C10 witness: the amended totality evaluated at a dict with a string
subtype and nothing else. -/
theorem c10_decode_total_witness :
    (∃ v, format_result [("subtype", .str "array")] = .ok v) ∧
    (∃ v, format_remote_object [("subtype", .str "array")] = .ok v) ∧
    format_result [] = .ok (.str "[unknown]") ∧
    format_remote_object [] = .ok (.str "[unknown]") :=
  c10_decode_total [("subtype", .str "array")] (by decide)

/-! ## C3: target resolution case analysis -/

/-- C3 counterexample: an explicit id that is the empty string is given
yet matches no candidate, but `if app_id:` treats it as absent, so the
code fails with the multiple-apps (AmbiguousTarget) diagnostic instead
of the claimed TargetNotFound one. -/
theorem c3_counterexample :
    resolve_app (some "")
      [[("id", .str "a"), ("title", .str "A")], [("id", .str "b"), ("title", .str "B")]] =
      .ambiguous ["  - a: A", "  - b: B"] ∧
    (∀ l, resolve_app (some "")
      [[("id", .str "a"), ("title", .str "A")], [("id", .str "b"), ("title", .str "B")]] ≠
      .notFound l) := by
  constructor
  · decide
  · intro l h
    rw [show resolve_app (some "")
      [[("id", .str "a"), ("title", .str "A")], [("id", .str "b"), ("title", .str "B")]] =
      .ambiguous ["  - a: A", "  - b: B"] from by decide] at h
    exact ResolveResult.noConfusion h

/-- C3 (amended): `resolve_app` satisfies the claimed case analysis with
"given" read as "given and non-empty": empty candidates fail with
NoTargets; a non-empty explicit id matching no candidate fails with
TargetNotFound listing every candidate's id and title; a non-empty
explicit id returns the first matching candidate; with no (or an empty)
explicit id, a single candidate is returned and more than one fails with
AmbiguousTarget listing every candidate's id and title. An explicit id
that is the empty string behaves as if omitted. -/
theorem c3_resolution_cases :
    (∀ aid, resolve_app aid [] = .noTargets)
    ∧ (∀ (s : String) apps, apps ≠ [] → s ≠ "" →
        (∀ app ∈ apps, (getD app "id" .null == .str s) = false) →
        resolve_app (some s) apps = .notFound (apps.map candidateLine))
    ∧ (∀ (s : String) pre app post, s ≠ "" →
        (∀ b ∈ pre, (getD b "id" .null == .str s) = false) →
        (getD app "id" .null == .str s) = true →
        resolve_app (some s) (pre ++ app :: post) = .ok app)
    ∧ (∀ aid app, truthyStrOpt aid = false → resolve_app aid [app] = .ok app)
    ∧ (∀ aid apps, truthyStrOpt aid = false → 2 ≤ apps.length →
        resolve_app aid apps = .ambiguous (apps.map candidateLine)) := by
  refine ⟨?_, ?_, ?_, ?_, ?_⟩
  · intro aid; simp [resolve_app]
  · intro s apps hne hs hall
    have hfind : List.find? (fun app => getD app "id" .null == .str s) apps = none :=
      List.find?_eq_none.mpr (by intro x hx; simp [hall x hx])
    simp [resolve_app, hne, truthyStrOpt, hs, hfind]
  · intro s pre app post hs hpre happ
    have hfind := find?_append_first (fun b => getD b "id" .null == .str s) pre app post hpre happ
    simp [resolve_app, truthyStrOpt, hs, hfind]
  · intro aid app hf
    simp [resolve_app, hf]
  · intro aid apps hf hlen
    have hne : ¬apps.isEmpty = true := by
      cases apps with
      | nil => simp at hlen
      | cons a rest => simp
    have hlen1 : ¬apps.length == 1 := by
      cases apps with
      | nil => simp at hlen
      | cons a rest =>
        cases rest with
        | nil => simp at hlen
        | cons b r2 => simp [List.length]
    simp [resolve_app, hne, hf, hlen1]

/-- C3 witness: the amended case analysis evaluated on concrete
candidate lists. -/
theorem c3_resolution_cases_witness :
    resolve_app (some "x") [[("id", .str "a"), ("title", .str "A")]] =
      .notFound ["  - a: A"] ∧
    resolve_app (some "b")
      [[("id", .str "a"), ("title", .str "A")], [("id", .str "b"), ("title", .str "B")]] =
      .ok [("id", .str "b"), ("title", .str "B")] ∧
    resolve_app none [[("id", .str "a"), ("title", .str "A")]] =
      .ok [("id", .str "a"), ("title", .str "A")] := by
  refine ⟨?_, ?_, ?_⟩
  · exact c3_resolution_cases.2.1 "x" [[("id", .str "a"), ("title", .str "A")]]
      (by decide) (by decide) (by decide)
  · exact c3_resolution_cases.2.2.1 "b" ([[("id", .str "a"), ("title", .str "A")]] : List JDict)
      ([("id", .str "b"), ("title", .str "B")] : JDict) ([] : List JDict)
      (by decide) (by decide) (by decide)
  · exact c3_resolution_cases.2.2.2.1 none
      ([("id", .str "a"), ("title", .str "A")] : JDict) (by decide)

/-! ## C2: early id=2 response and the handshake flag -/

/-- C2 counterexample: from the initial state (handshake flag unset), a
response with id=2 is processed in full — the SessionResult is recorded
and the channel close is initiated — contradicting the claim that the
session does not transition past AwaitingEnable on such a message. -/
theorem c2_counterexample :
    execInit.runtime_enabled = false ∧
    (execStep execInit
      (.obj [("id", .num 2),
             ("result", .obj [("result", .obj [("type", .str "string"), ("value", .str "early")])])])).closed
      = true ∧
    (execStep execInit
      (.obj [("id", .num 2),
             ("result", .obj [("result", .obj [("type", .str "string"), ("value", .str "early")])])])).output
      = some (.str "early") := by
  decide

/-- C2 (amended): the session does not enforce the handshake-ordering
invariant. The `runtime_enabled` flag is written on the id=1 response
but never consulted: a response with id=2 that arrives while the flag is
still unset is handled exactly as after the handshake — here, for a
well-formed successful response, the result is recorded and the channel
closed. In practice the ordering is guaranteed by the peer because the
evaluate request is only sent upon the id=1 response. -/
theorem c2_early_response_processed (st : ExecState) (data er rf : JDict) (out : Json)
    (hrt : st.runtime_enabled = false)
    (hcl : st.closed = false) (hcr : st.crashed = false)
    (hid : getD data "id" .null = .num 2)
    (herr : lookupField data "error" = none)
    (hres : lookupField data "result" = some (.obj er))
    (hexc : lookupField er "exceptionDetails" = none)
    (hrr : lookupField er "result" = some (.obj rf))
    (hfmt : format_result rf = .ok out) :
    execStep st (.obj data) = { st with success := true, output := some out, closed := true } := by
  simp [execStep, hcl, hcr, hid, evalResponseEffect, herr, hres, hexc, hrr, hfmt, applyEffect]

/-- C2 witness: the amended behaviour evaluated from the initial state
on a concrete early id=2 response. -/
theorem c2_early_response_processed_witness :
    execStep execInit
      (.obj [("id", .num 2),
             ("result", .obj [("result", .obj [("type", .str "string"), ("value", .str "hi")])])]) =
      { execInit with success := true, output := some (.str "hi"), closed := true } :=
  c2_early_response_processed execInit
    [("id", .num 2),
     ("result", .obj [("result", .obj [("type", .str "string"), ("value", .str "hi")])])]
    [("result", .obj [("type", .str "string"), ("value", .str "hi")])]
    [("type", .str "string"), ("value", .str "hi")]
    (.str "hi") rfl rfl rfl (by decide) (by decide) (by decide) (by decide) (by decide) (by decide)

/-! ## C5: decoding of the evaluate response -/

/-- A crafted id=2 response whose exception carries an empty (falsy)
description together with a `text` summary, plus a structurally present
nested result. -/
def c5data : JDict :=
  [("id", .num 2),
   ("result", .obj
     [("exceptionDetails", .obj
        [("exception", .obj [("description", .str "")]), ("text", .str "boom")]),
      ("result", .obj [("type", .str "string"), ("value", .str "ok")])])]

/-- C5 counterexample: the exception object's description is present
(the empty string) but Python's `or` skips falsy values, so the recorded
error is the details' text, not the description — against the claim's
"description if present". (The exception path itself does win over the
structurally present nested result.) -/
theorem c5_counterexample :
    (execStep execInit (.obj c5data)).error = some (.str "boom") ∧
    some (Json.str "boom") ≠ some (Json.str "") := by
  decide

/-- C5 (amended): when the evaluate response (id=2) arrives: an error
object wins and its message (default "Unknown error") becomes the
SessionResult error; otherwise exception details win even when a nested
result is structurally present, the error being the exception object's
description if present and truthy, else the details' `text` (default
"Exception"); otherwise a present nested result is decoded by
`format_result`; and absence of a nested result yields success with the
literal output "undefined". Every branch then closes the channel. -/
theorem c5_evaluate_response (st : ExecState) (data : JDict)
    (hcl : st.closed = false) (hcr : st.crashed = false)
    (hid : getD data "id" .null = .num 2) :
    (∀ e, lookupField data "error" = some (.obj e) →
      execStep st (.obj data) =
        { st with error := some (getD e "message" (.str "Unknown error")), closed := true })
    ∧ (∀ er excFields excObj, lookupField data "error" = none →
        lookupField data "result" = some (.obj er) →
        lookupField er "exceptionDetails" = some (.obj excFields) →
        getD excFields "exception" (.obj []) = .obj excObj →
        execStep st (.obj data) =
          { st with
              error := some (if truthy (getD excObj "description" .null)
                             then getD excObj "description" .null
                             else getD excFields "text" (.str "Exception")),
              closed := true })
    ∧ (∀ er rf out, lookupField data "error" = none →
        lookupField data "result" = some (.obj er) →
        lookupField er "exceptionDetails" = none →
        lookupField er "result" = some (.obj rf) →
        format_result rf = .ok out →
        execStep st (.obj data) =
          { st with success := true, output := some out, closed := true })
    ∧ (∀ er, lookupField data "error" = none →
        lookupField data "result" = some (.obj er) →
        lookupField er "exceptionDetails" = none →
        lookupField er "result" = none →
        execStep st (.obj data) =
          { st with success := true, output := some (.str "undefined"), closed := true }) := by
  refine ⟨?_, ?_, ?_, ?_⟩
  · intro e herr
    simp [execStep, hcl, hcr, hid, evalResponseEffect, herr, applyEffect]
  · intro er excFields excObj herr hres hexc hobj
    simp [execStep, hcl, hcr, hid, evalResponseEffect, herr, hres, hexc, hobj, applyEffect]
  · intro er rf out herr hres hexc hrr hfmt
    simp [execStep, hcl, hcr, hid, evalResponseEffect, herr, hres, hexc, hrr, hfmt, applyEffect]
  · intro er herr hres hexc hrr
    simp [execStep, hcl, hcr, hid, evalResponseEffect, herr, hres, hexc, hrr, applyEffect]

/-- C5 witness: the amended decoding evaluated on the crafted response
carrying both exception details and a nested result. -/
theorem c5_evaluate_response_witness :
    execStep execInit (.obj c5data) =
      { execInit with error := some (.str "boom"), closed := true } := by
  have h := (c5_evaluate_response execInit c5data rfl rfl (by decide)).2.1
    [("exceptionDetails", .obj
       [("exception", .obj [("description", .str "")]), ("text", .str "boom")]),
     ("result", .obj [("type", .str "string"), ("value", .str "ok")])]
    [("exception", .obj [("description", .str "")]), ("text", .str "boom")]
    [("description", .str "")]
    (by decide) (by decide) (by decide) (by decide)
  simpa using h

/-! ## C4: exclusivity of output and error in the SessionResult -/

/-- Invariant of the evaluation callback state on traces without
transport errors: output tracks the success flag, and (as long as no
callback crashed) a set success flag or a recorded error entails the
channel was closed by this side, with the other slot empty. -/
def ExecInv (st : ExecState) : Prop :=
  (st.success = true ↔ st.output ≠ none) ∧
  (st.crashed = false →
    ((st.success = true → st.closed = true ∧ st.error = none) ∧
     (st.error ≠ none → st.closed = true ∧ st.success = false)))

lemma execEvent_inv (st : ExecState) (ev : ChanEvent)
    (hev : isTransportErr ev = false) (h : ExecInv st) : ExecInv (execEvent st ev) := by
  cases ev with
  | transportError d => simp [isTransportErr] at hev
  | msg m =>
    by_cases hc : (st.closed || st.crashed) = true
    · cases m <;> simp [execEvent, execStep, hc] <;> exact h
    · obtain ⟨hcl, hcr⟩ : st.closed = false ∧ st.crashed = false := by
        simpa [Bool.or_eq_true] using hc
      have hsf : st.success = false := by
        by_cases hsu : st.success = true
        · exact absurd ((h.2 hcr).1 hsu).1 (by simp [hcl])
        · simpa using hsu
      have herr : st.error = none := by
        by_cases he : st.error = none
        · exact he
        · exact absurd ((h.2 hcr).2 he).1 (by simp [hcl])
      have hout : st.output = none := by
        by_cases ho : st.output = none
        · exact ho
        · exact absurd (h.1.mpr ho) (by simp [hsf])
      cases m with
      | malformed => simp [execEvent, execStep, hc]; exact h
      | obj data =>
        simp only [execEvent, execStep, hc, Bool.false_eq_true, if_false]
        split
        · constructor
          · simpa using h.1
          · intro _; simp [hsf, herr]
        · split
          · cases heff : evalResponseEffect data with
            | none0 => simp [applyEffect, ExecInv, hsf, herr, hout]
            | recErr e => simp [applyEffect, ExecInv, hsf, hout]
            | recOut o => simp [applyEffect, ExecInv, herr]
            | crash => simp [applyEffect, ExecInv, hsf, hout]
          · exact h

lemma execFinish_crashed (st : ExecState) (b : Bool) :
    (execFinish st b).crashed = st.crashed := by
  cases b with
  | false => simp [execFinish]
  | true =>
      simp only [execFinish, if_true]
      split <;> rfl

lemma foldl_exec_inv (evs : List ChanEvent) (st : ExecState)
    (hte : ∀ ev ∈ evs, isTransportErr ev = false) (h : ExecInv st) :
    ExecInv (evs.foldl execEvent st) := by
  induction evs generalizing st with
  | nil => exact h
  | cons e rest ih =>
      exact ih (execEvent st e) (fun ev hev => hte ev (by simp [hev]))
        (execEvent_inv st e (hte e (by simp)) h)

/-- An evaluation trace in which a transport error fires and a late
successful id=2 response still arrives before the connection ends. -/
def c4lateTrace : List ChanEvent :=
  [.transportError "connection reset",
   .msg (.obj [("id", .num 2),
               ("result", .obj [("result", .obj [("type", .str "string"), ("value", .str "late")])])])]

/-- C4 counterexample: the exactly-one invariant fails on both exit
paths the claim names. If the peer closes the channel without ever
responding (empty trace, no timeout), the returned record has success
false with neither output nor error; after a transport error followed by
a late successful response, it has success true with both output and
error populated. -/
theorem c4_counterexample :
    ((execute_in_app [] false).success = false ∧
     (execute_in_app [] false).output = none ∧
     (execute_in_app [] false).error = none) ∧
    ((execute_in_app c4lateTrace false).success = true ∧
     (execute_in_app c4lateTrace false).output = some (.str "late") ∧
     (execute_in_app c4lateTrace false).error = some (.str "WebSocket error: connection reset")) := by
  decide

/-- C4 (amended): on every trace without transport-error callbacks and
without callback crashes, the decoded output is present iff the success
flag is set; and provided the flow additionally either timed out or
recorded something (success set or an error present), exactly one of
output and error is populated. Without that proviso the guarantee fails:
a peer close with no response populates neither, and a transport error
followed by a late successful response populates both. -/
theorem c4_result_exclusivity (evs : List ChanEvent) (threadAlive : Bool)
    (hte : evs.all (fun ev => !isTransportErr ev) = true)
    (hcr : (execute_in_app evs threadAlive).crashed = false)
    (hrec : threadAlive = true ∨ (execute_in_app evs threadAlive).success = true ∨
            (execute_in_app evs threadAlive).error ≠ none) :
    ((execute_in_app evs threadAlive).success = true ∧
     (execute_in_app evs threadAlive).output ≠ none ∧
     (execute_in_app evs threadAlive).error = none) ∨
    ((execute_in_app evs threadAlive).success = false ∧
     (execute_in_app evs threadAlive).output = none ∧
     (execute_in_app evs threadAlive).error ≠ none) := by
  have hte' : ∀ ev ∈ evs, isTransportErr ev = false := by
    intro ev hm
    have := List.all_eq_true.mp hte ev hm
    simpa using this
  have hinv : ExecInv (evs.foldl execEvent execInit) :=
    foldl_exec_inv evs execInit hte' (by simp [ExecInv, execInit])
  have hcr0 : (evs.foldl execEvent execInit).crashed = false := by
    rw [execute_in_app, execFinish_crashed] at hcr
    exact hcr
  cases threadAlive with
  | false =>
    simp only [execute_in_app, execFinish] at hrec ⊢
    by_cases hsu : (evs.foldl execEvent execInit).success = true
    · left
      refine ⟨hsu, hinv.1.mp hsu, ((hinv.2 hcr0).1 hsu).2⟩
    · right
      have hsf : (evs.foldl execEvent execInit).success = false := by simpa using hsu
      refine ⟨hsf, ?_, ?_⟩
      · by_cases ho : (evs.foldl execEvent execInit).output = none
        · exact ho
        · exact absurd (hinv.1.mpr ho) hsu
      · rcases hrec with h | h | h
        · exact absurd h (by simp)
        · exact absurd h hsu
        · exact h
  | true =>
    by_cases hsu : (evs.foldl execEvent execInit).success = true
    · left
      have herr := ((hinv.2 hcr0).1 hsu).2
      have hou := hinv.1.mp hsu
      simp [execute_in_app, execFinish, hsu, herr, hou]
    · right
      have hsf : (evs.foldl execEvent execInit).success = false := by simpa using hsu
      have hout : (evs.foldl execEvent execInit).output = none := by
        by_cases ho : (evs.foldl execEvent execInit).output = none
        · exact ho
        · exact absurd (hinv.1.mpr ho) hsu
      by_cases herrf : errFalsy (evs.foldl execEvent execInit).error = true
      · simp [execute_in_app, execFinish, hsf, hout, herrf]
      · have herrf' : errFalsy (evs.foldl execEvent execInit).error = false := by
          simpa using herrf
        have hen : (evs.foldl execEvent execInit).error ≠ none := by
          intro hn
          rw [hn] at herrf'
          simp [errFalsy] at herrf'
        simp [execute_in_app, execFinish, hsf, hout, herrf', hen]

/-- C4 witness: the amended exclusivity evaluated on a one-response
trace that records a successful result before the connection ends. -/
theorem c4_result_exclusivity_witness :
    ((execute_in_app [.msg (.obj [("id", .num 2), ("result", .obj [])])] false).success = true ∧
     (execute_in_app [.msg (.obj [("id", .num 2), ("result", .obj [])])] false).output ≠ none ∧
     (execute_in_app [.msg (.obj [("id", .num 2), ("result", .obj [])])] false).error = none) ∨
    ((execute_in_app [.msg (.obj [("id", .num 2), ("result", .obj [])])] false).success = false ∧
     (execute_in_app [.msg (.obj [("id", .num 2), ("result", .obj [])])] false).output = none ∧
     (execute_in_app [.msg (.obj [("id", .num 2), ("result", .obj [])])] false).error ≠ none) :=
  c4_result_exclusivity [.msg (.obj [("id", .num 2), ("result", .obj [])])] false
    (by decide) (by decide) (Or.inr (Or.inl (by decide)))

/-! ## C6: the capture limit -/

/-- Invariant of the log-capture state for a limit `N`: either fewer
than `N` records and the channel still open, or exactly `N` records with
the close already initiated (in the very step that appended the N-th). -/
def LogInv (maxLogs : Int) (st : LogState) : Prop :=
  ((st.logs.length : Int) < maxLogs ∧ st.closed = false) ∨
  ((st.logs.length : Int) = maxLogs ∧ st.closed = true)

lemma logStep_inv (maxLogs : Int) (p : Option (String → Bool)) (st : LogState) (m : WireMsg)
    (h : LogInv maxLogs st) : LogInv maxLogs (logStep maxLogs p st m) := by
  by_cases hc : (st.closed || st.crashed) = true
  · simpa [logStep, hc] using h
  · obtain ⟨hcl, hcr⟩ : st.closed = false ∧ st.crashed = false := by
      simpa [Bool.or_eq_true] using hc
    have hlt : (st.logs.length : Int) < maxLogs := by
      rcases h with ⟨h1, _⟩ | ⟨_, h2⟩
      · exact h1
      · rw [h2] at hcl; cases hcl
    cases m with
    | malformed => simpa [logStep, hc] using h
    | obj data =>
      simp only [logStep, hc, Bool.false_eq_true, if_false]
      cases heff : consoleEffect p data with
      | skip => exact h
      | crash => left; exact ⟨hlt, hcl⟩
      | record entry =>
        simp only
        split
        · rename_i hge
          right
          refine ⟨?_, rfl⟩
          simp only [List.length_append, List.length_cons, List.length_nil] at hge ⊢
          omega
        · rename_i hge
          left
          refine ⟨?_, hcl⟩
          simp only [List.length_append, List.length_cons, List.length_nil] at hge ⊢
          omega

lemma foldl_log_inv (maxLogs : Int) (p : Option (String → Bool)) (msgs : List WireMsg)
    (st : LogState) (h : LogInv maxLogs st) :
    LogInv maxLogs (msgs.foldl (logStep maxLogs p) st) := by
  induction msgs generalizing st with
  | nil => exact h
  | cons m rest ih => exact ih _ (logStep_inv maxLogs p st m h)

lemma runLog_inv (maxLogs : Int) (hN : 1 ≤ maxLogs) (p : Option (String → Bool))
    (msgs : List WireMsg) : LogInv maxLogs (runLog maxLogs p msgs) := by
  have hinit : LogInv maxLogs logInit := by
    left
    constructor
    · simpa [logInit] using hN
    · rfl
  exact foldl_log_inv maxLogs p msgs logInit hinit

/-- C6 counterexample: with a configured maximum of 0 records, a single
delivered console event is still appended before the `>=` test closes
the channel, so the returned list holds 1 record — not at most 0. -/
theorem c6_counterexample :
    ¬ (((runLog 0 none [sampleConsoleMsg]).logs.length : Int) ≤ 0) := by
  decide

/-- C6 (amended): for every maximum record count N ≥ 1, every run of log
capture returns at most N records, and — on every trace prefix, so "as
soon as" the N-th record is appended — the accumulated count equals N
exactly when the channel close has been initiated, independent of the
timeout. For N = 0 (and negative N) the first matching record is still
appended before the limit check closes the channel, so the list can
reach one record. -/
theorem c6_capture_limit (maxLogs : Int) (hN : 1 ≤ maxLogs) (p : Option (String → Bool))
    (msgs : List WireMsg) :
    ((runLog maxLogs p msgs).logs.length : Int) ≤ maxLogs ∧
    (((runLog maxLogs p msgs).logs.length : Int) = maxLogs ↔
      (runLog maxLogs p msgs).closed = true) := by
  rcases runLog_inv maxLogs hN p msgs with ⟨h1, h2⟩ | ⟨h1, h2⟩
  · refine ⟨le_of_lt h1, ?_, ?_⟩
    · intro he; omega
    · intro hcl; rw [hcl] at h2; cases h2
  · refine ⟨le_of_eq h1, fun _ => h2, fun _ => h1⟩

/-- C6 witness: the amended limit behaviour evaluated at N = 1 on a
two-event trace — the second event is not recorded. -/
theorem c6_capture_limit_witness :
    ((runLog 1 none [sampleConsoleMsg, sampleConsoleMsg]).logs.length : Int) ≤ 1 ∧
    (((runLog 1 none [sampleConsoleMsg, sampleConsoleMsg]).logs.length : Int) = 1 ↔
      (runLog 1 none [sampleConsoleMsg, sampleConsoleMsg]).closed = true) :=
  c6_capture_limit 1 (by decide) none [sampleConsoleMsg, sampleConsoleMsg]

/-! ## C7: timeout semantics of the two flows -/

/-- C7: if the wall-clock timeout elapses while the evaluation flow has
recorded neither a result nor an error, the epilogue force-closes the
channel and returns the record with success false and the synthesized
timeout message; if the timeout elapses during log capture, the flow
returns exactly the records accumulated so far — the return value never
carries an error, timeout or not. -/
theorem c7_timeout_behaviour :
    (∀ evs, (evs.foldl execEvent execInit).success = false →
      (evs.foldl execEvent execInit).error = none →
      execute_in_app evs true =
        { evs.foldl execEvent execInit with
            success := false, closed := true, error := some (.str timeoutMsg) })
    ∧ (∀ (maxLogs : Int) (p : Option (String → Bool)) msgs threadAlive,
        read_logs maxLogs p msgs threadAlive = (runLog maxLogs p msgs).logs) := by
  constructor
  · intro evs hs he
    simp [execute_in_app, execFinish, hs, he, errFalsy]
  · intro maxLogs p msgs threadAlive
    rfl

/-- C7 witness: the timeout behaviour evaluated on the empty trace (the
peer never responds) and on an empty capture run. -/
theorem c7_timeout_behaviour_witness :
    execute_in_app [] true =
      { execInit with success := false, closed := true, error := some (.str timeoutMsg) } ∧
    read_logs 5 none [] true = [] :=
  ⟨c7_timeout_behaviour.1 [] rfl rfl, c7_timeout_behaviour.2 5 none [] true⟩

/-! ## C8: the unsupported-client marker is dropped -/

/-- C8: a console-API event whose space-joined argument decoding
contains the diagnostic marker produces no record at all: the state —
records, close flag, everything — is left untouched, whatever the filter
and whatever the configured limit, so the event is dropped before the
filter applies and never counts toward the limit. -/
theorem c8_marker_dropped (maxLogs : Int) (p : Option (String → Bool)) (st : LogState)
    (data params : JDict) (args : List Json) (text : String)
    (hcl : st.closed = false) (hcr : st.crashed = false)
    (hm : getD data "method" .null = .str "Runtime.consoleAPICalled")
    (hp : getD data "params" (.obj []) = .obj params)
    (ha : argList (getD params "args" (.arr [])) = .ok args)
    (ht : decodeArgs args = .ok text)
    (hmk : strContains text UNSUPPORTED_MSG = true) :
    logStep maxLogs p st (.obj data) = st := by
  simp [logStep, hcl, hcr, consoleEffect, hm, hp, ha, ht, hmk]

/-- C8 witness: the marker as the sole console argument is dropped, with
a filter configured and capacity available. -/
theorem c8_marker_dropped_witness :
    logStep 3 (some (fun _ => true)) logInit
      (.obj [("method", .str "Runtime.consoleAPICalled"),
             ("params", .obj [("args", .arr
               [.obj [("type", .str "string"), ("value", .str UNSUPPORTED_MSG)]])])]) =
      logInit :=
  c8_marker_dropped 3 (some (fun _ => true)) logInit
    [("method", .str "Runtime.consoleAPICalled"),
     ("params", .obj [("args", .arr
       [.obj [("type", .str "string"), ("value", .str UNSUPPORTED_MSG)]])])]
    [("args", .arr [.obj [("type", .str "string"), ("value", .str UNSUPPORTED_MSG)]])]
    [.obj [("type", .str "string"), ("value", .str UNSUPPORTED_MSG)]]
    UNSUPPORTED_MSG
    rfl rfl (by decide) (by decide) (by decide) (by decide) (by decide)

/-! ## C9: invalid JSON is silently discarded -/

/-- C9: in both callbacks a frame that `json.loads` rejects leaves the
whole flow-local state untouched — no records, no result fields, no
handshake flag change, no channel close — and the session keeps
processing subsequent frames. -/
theorem c9_malformed_ignored :
    (∀ (maxLogs : Int) (p : Option (String → Bool)) (st : LogState),
      logStep maxLogs p st .malformed = st) ∧
    (∀ st : ExecState, execStep st .malformed = st) := by
  constructor
  · intro maxLogs p st
    unfold logStep
    split <;> rfl
  · intro st
    unfold execStep
    split <;> rfl
